import Mathlib

/-
Verification of the spam-restrictor membership lifecycle core.

The development shallowly embeds the two modules the claims are about:

- src/database.py: a SQLite-backed store with two tables,
  restricted_users and banned_users, both keyed by user_id
  (PRIMARY KEY). Every Database method commits before returning, so a
  DBState value here denotes the committed database state at method
  boundaries. Timestamps are modelled as integers (seconds);
  datetime.utcnow() becomes an explicit now parameter, and
  timedelta(days=d) becomes d * 86400 seconds.

- src/bot.py: the join-event router (track_chat_member) and the expiry
  sweeper (check_expired_restrictions). The Telegram gateway is
  modelled as an oracle over gateway calls that says whether each call
  succeeds or raises TelegramError; admin notifications are modelled
  as the list of notify_admin call sites reached, tagged by which
  message each site sends.

Storage I/O failures of the driver are modelled by explicit failure
flags on the operations whose source wraps the SQL in try/except:
add_restricted_user catches only IntegrityError, so an injected driver
failure propagates as a StorageError; add_banned_user catches every
exception and returns False, so an injected failure is swallowed.
-/

namespace SpamRestrictor

/-- A row of the restricted_users table. -/
structure RestrictedRow where
  user_id : Int
  username : Option String
  first_name : Option String
  last_name : Option String
  joined_at : Int
  restricted_at : Int
deriving Repr, DecidableEq

/-- A row of the banned_users table. -/
structure BannedRow where
  user_id : Int
  username : Option String
  first_name : Option String
  last_name : Option String
  banned_at : Int
  reason : String
deriving Repr, DecidableEq

/-- The committed state of the SQLite database: the two tables. -/
structure DBState where
  restricted : List RestrictedRow
  banned : List BannedRow
deriving Repr, DecidableEq

/-- A storage I/O failure raised by the database driver (any
aiosqlite exception other than the IntegrityError of a duplicate
primary key). -/
inductive StorageError
  | ioError
deriving Repr, DecidableEq

/-- Database.is_user_restricted: SELECT 1 FROM restricted_users WHERE
user_id = uid, returning whether a row exists. -/
def is_user_restricted (db : DBState) (uid : Int) : Bool :=
  db.restricted.any (fun r => r.user_id == uid)

/-- Database.is_user_banned: SELECT 1 FROM banned_users WHERE
user_id = uid, returning whether a row exists. -/
def is_user_banned (db : DBState) (uid : Int) : Bool :=
  db.banned.any (fun r => r.user_id == uid)

/-- Database.add_restricted_user: plain INSERT into restricted_users.
A duplicate primary key raises IntegrityError, which the source
catches and turns into the return value False; any other driver
failure (the fail flag) is not caught and propagates. On success both
joined_at and restricted_at are set to now. -/
def add_restricted_user (db : DBState) (now : Int) (uid : Int)
    (username first_name last_name : Option String) (fail : Bool) :
    Except StorageError (Bool × DBState) :=
  if fail then
    .error .ioError
  else if is_user_restricted db uid then
    .ok (false, db)
  else
    .ok (true,
      { db with restricted :=
          db.restricted ++ [⟨uid, username, first_name, last_name, now, now⟩] })

/-- Database.add_banned_user: INSERT OR REPLACE into banned_users
(the row with the same primary key, if any, is replaced), wrapped in a
try/except that catches every exception and returns False. An injected
driver failure therefore leaves the state unchanged and yields the
normal result False; no error ever propagates to the caller. -/
def add_banned_user (db : DBState) (now : Int) (uid : Int)
    (username first_name last_name : Option String) (reason : String)
    (fail : Bool) : Bool × DBState :=
  if fail then
    (false, db)
  else
    (true,
      { db with banned :=
          db.banned.filter (fun r => r.user_id != uid)
            ++ [⟨uid, username, first_name, last_name, now, reason⟩] })

/-- Database.remove_restricted_user: DELETE FROM restricted_users
WHERE user_id = uid; returns whether any row was deleted
(cursor.rowcount greater than zero). -/
def remove_restricted_user (db : DBState) (uid : Int) : Bool × DBState :=
  (is_user_restricted db uid,
    { db with restricted := db.restricted.filter (fun r => r.user_id != uid) })

/-- Database.get_expired_restrictions: SELECT the rows of
restricted_users whose restricted_at is less than or equal to
cutoff_date = now - timedelta(days=days). -/
def get_expired_restrictions (db : DBState) (now : Int) (days : Int) :
    List RestrictedRow :=
  db.restricted.filter (fun r => decide (r.restricted_at ≤ now - days * 86400))

/-- The configuration fields of Config that the embedded handlers
read. -/
structure Config where
  group_id : Int
  restriction_period_days : Int
  notify_no_users : Bool
deriving Repr, DecidableEq

/-- A call issued to the Telegram gateway: ban_chat_member,
unban_chat_member or restrict_chat_member for a user of the configured
group. -/
inductive GwCall
  | ban (uid : Int)
  | unban (uid : Int)
  | tgRestrict (uid : Int)
deriving Repr, DecidableEq

/-- A notify_admin call site reached by the handlers, tagged by which
message that site sends. -/
inductive Notif
  | rebanOk (uid : Int)
  | rebanFail (uid : Int)
  | restrictedOk (uid : Int)
  | restrictFail (uid : Int)
  | removedOk (uid : Int)
  | removeFail (uid : Int)
  | noExpired
deriving Repr, DecidableEq

/-- Whether a notification reports a failure (the notify_admin sites
inside an except-clause on TelegramError). -/
def Notif.isFailure : Notif → Bool
  | .rebanFail _ => true
  | .restrictFail _ => true
  | .removeFail _ => true
  | _ => false

/-- The status of new_chat_member in a chat-member update. -/
inductive MemberStatus
  | member
  | administrator
  | owner
  | leftChat
  | kicked
  | restrictedMember
deriving Repr, DecidableEq

/-- Whether the status is one of MEMBER, ADMINISTRATOR, OWNER, the
list track_chat_member tests membership in. -/
def isJoinStatus : MemberStatus → Bool
  | .member => true
  | .administrator => true
  | .owner => true
  | _ => false

/-- The fields of a chat-member update that track_chat_member reads. -/
structure JoinEvent where
  chat_id : Int
  status : MemberStatus
  is_bot : Bool
  user_id : Int
  username : Option String
  first_name : Option String
  last_name : Option String
deriving Repr, DecidableEq

/-- The observable outcome of one handler run: the committed database
state, the sequence of gateway calls issued, and the sequence of
notify_admin call sites reached. -/
structure BotResult where
  db : DBState
  gwTrace : List GwCall
  notifs : List Notif
deriving Repr, DecidableEq

/-- SpamRestrictorBot.track_chat_member. The gateway oracle g says
whether each gateway call succeeds (false means it raises
TelegramError). insFail injects a driver failure into the
add_restricted_user INSERT; since the except-clause of the restriction
branch catches only TelegramError, that failure propagates out of the
handler as a StorageError. -/
def track_chat_member (cfg : Config) (g : GwCall → Bool) (now : Int)
    (ev : JoinEvent) (db : DBState) (insFail : Bool) :
    Except StorageError BotResult :=
  if ev.chat_id != cfg.group_id then
    .ok ⟨db, [], []⟩
  else if !isJoinStatus ev.status then
    .ok ⟨db, [], []⟩
  else if ev.is_bot then
    .ok ⟨db, [], []⟩
  else if is_user_banned db ev.user_id then
    if g (.ban ev.user_id) then
      .ok ⟨db, [.ban ev.user_id], [.rebanOk ev.user_id]⟩
    else
      .ok ⟨db, [.ban ev.user_id], [.rebanFail ev.user_id]⟩
  else
    if g (.tgRestrict ev.user_id) then
      match add_restricted_user db now ev.user_id ev.username ev.first_name
          ev.last_name insFail with
      | .error e => .error e
      | .ok (_, db1) =>
        .ok ⟨db1, [.tgRestrict ev.user_id], [.restrictedOk ev.user_id]⟩
    else
      .ok ⟨db, [.tgRestrict ev.user_id], [.restrictFail ev.user_id]⟩

/-- One iteration of the sweep loop of check_expired_restrictions for
one expired user: ban_chat_member, unban_chat_member, then
add_banned_user and remove_restricted_user, with the per-user
except-clause catching TelegramError from the gateway calls. The
return value of add_banned_user is ignored by the source, and sfail
injects a driver failure into its INSERT (which add_banned_user
swallows). -/
def sweep_user (g : GwCall → Bool) (now : Int) (sfail : Int → Bool)
    (acc : BotResult) (u : RestrictedRow) : BotResult :=
  let uid := u.user_id
  if g (.ban uid) then
    if g (.unban uid) then
      let db1 := (add_banned_user acc.db now uid u.username u.first_name
        u.last_name "Истек период ограничения" (sfail uid)).2
      let db2 := (remove_restricted_user db1 uid).2
      ⟨db2, acc.gwTrace ++ [.ban uid, .unban uid], acc.notifs ++ [.removedOk uid]⟩
    else
      ⟨acc.db, acc.gwTrace ++ [.ban uid, .unban uid],
        acc.notifs ++ [.removeFail uid]⟩
  else
    ⟨acc.db, acc.gwTrace ++ [.ban uid], acc.notifs ++ [.removeFail uid]⟩

/-- SpamRestrictorBot.check_expired_restrictions: query the expired
restrictions once, then run the per-user loop over the snapshot. If
the query is empty, the optional no-action notification is sent when
config.notify_no_users is set. -/
def check_expired_restrictions (cfg : Config) (g : GwCall → Bool) (now : Int)
    (sfail : Int → Bool) (db : DBState) : BotResult :=
  let expired := get_expired_restrictions db now cfg.restriction_period_days
  if expired.isEmpty then
    if cfg.notify_no_users then ⟨db, [], [.noExpired]⟩ else ⟨db, [], []⟩
  else
    expired.foldl (sweep_user g now sfail) ⟨db, [], []⟩

/-- One completed state-mutating operation of the bot: a join event
handled by the router, or one sweeper run. Each carries the oracles of
its run (the gateway outcomes and the injected ban-insert driver
failures). -/
inductive BotOp
  | joinOp (g : GwCall → Bool) (now : Int) (ev : JoinEvent) (insFail : Bool)
  | sweepOp (g : GwCall → Bool) (now : Int) (sfail : Int → Bool)

/-- The committed database state after one completed bot operation. A
join-handler run that raises a StorageError has written nothing (the
failing INSERT never commits), so the state is unchanged. -/
def runOp (cfg : Config) (db : DBState) : BotOp → DBState
  | .joinOp g now ev insFail =>
    match track_chat_member cfg g now ev db insFail with
    | .ok r => r.db
    | .error _ => db
  | .sweepOp g now sfail => (check_expired_restrictions cfg g now sfail db).db

/-- The committed database state after a sequence of completed bot
operations. -/
def runOps (cfg : Config) (db : DBState) (ops : List BotOp) : DBState :=
  ops.foldl (runOp cfg) db

/-- Mutual exclusion of the two tables: no member id is in both
restricted_users and banned_users. -/
def mutex (db : DBState) : Prop :=
  ∀ uid : Int, is_user_restricted db uid = false ∨ is_user_banned db uid = false

/-! Helper lemmas about table membership under the primitive store
operations. -/

theorem any_eq_of_forall {α : Type} (l : List α) (p q : α → Bool)
    (h : ∀ x ∈ l, p x = q x) : l.any p = l.any q := by
  induction l with
  | nil => rfl
  | cons a t ih =>
    simp only [List.any_cons, h a (List.mem_cons_self a t),
      ih (fun x hx => h x (List.mem_cons_of_mem a hx))]

theorem any_key_filter {α : Type} (key : α → Int) (u v : Int) (l : List α) :
    (l.filter (fun r => key r != u)).any (fun r => key r == v) =
      ((v != u) && l.any (fun r => key r == v)) := by
  rw [List.any_filter]
  by_cases hvu : v = u
  · subst hvu
    have h : ∀ x ∈ l, ((key x != v) && (key x == v)) = false := by
      intro x _
      cases hx : key x == v
      · simp
      · simp [bne, hx]
    rw [any_eq_of_forall l _ _ h]
    simp [bne]
  · have hb : (v != u) = true := by simp [bne, hvu]
    have h : ∀ x ∈ l, ((key x != u) && (key x == v)) = (key x == v) := by
      intro x _
      cases hx : key x == v
      · simp
      · have : key x = v := eq_of_beq hx
        simp [this, bne, hvu]
    rw [any_eq_of_forall l _ _ h, hb, Bool.true_and]

theorem restricted_any_filter (l : List RestrictedRow) (u v : Int) :
    (l.filter (fun r => r.user_id != u)).any (fun r => r.user_id == v) =
      ((v != u) && l.any (fun r => r.user_id == v)) :=
  any_key_filter (fun r => r.user_id) u v l

theorem banned_any_filter (l : List BannedRow) (u v : Int) :
    (l.filter (fun r => r.user_id != u)).any (fun r => r.user_id == v) =
      ((v != u) && l.any (fun r => r.user_id == v)) :=
  any_key_filter (fun r => r.user_id) u v l

theorem is_user_restricted_add_banned (db : DBState) (now uid : Int)
    (u f l : Option String) (reason : String) (fail : Bool) (v : Int) :
    is_user_restricted (add_banned_user db now uid u f l reason fail).2 v =
      is_user_restricted db v := by
  cases fail <;> rfl

theorem is_user_banned_add_banned (db : DBState) (now uid : Int)
    (u f l : Option String) (reason : String) (v : Int) :
    is_user_banned (add_banned_user db now uid u f l reason false).2 v =
      ((v == uid) || is_user_banned db v) := by
  simp only [add_banned_user, is_user_banned, Bool.false_eq_true, if_false,
    List.any_append, banned_any_filter]
  by_cases h : v = uid
  · subst h
    simp [List.any_cons]
  · have hb : (v == uid) = false := by
      cases hx : v == uid
      · rfl
      · exact absurd (eq_of_beq hx) h
    have hb2 : (uid == v) = false := by
      cases hx : uid == v
      · rfl
      · exact absurd (eq_of_beq hx).symm h
    simp [hb, hb2, bne, List.any_cons]

theorem is_user_restricted_remove (db : DBState) (uid v : Int) :
    is_user_restricted (remove_restricted_user db uid).2 v =
      ((v != uid) && is_user_restricted db v) := by
  simp only [remove_restricted_user, is_user_restricted, restricted_any_filter]

theorem is_user_banned_remove (db : DBState) (uid v : Int) :
    is_user_banned (remove_restricted_user db uid).2 v = is_user_banned db v := rfl

theorem is_user_restricted_append_row (db : DBState) (row : RestrictedRow)
    (v : Int) :
    is_user_restricted { db with restricted := db.restricted ++ [row] } v =
      (is_user_restricted db v || (row.user_id == v)) := by
  simp [is_user_restricted, List.any_append]

theorem is_user_banned_append_restricted_row (db : DBState)
    (row : RestrictedRow) (v : Int) :
    is_user_banned { db with restricted := db.restricted ++ [row] } v =
      is_user_banned db v := rfl

theorem is_user_banned_add_banned_ne (db : DBState) (now uid : Int)
    (u f l : Option String) (reason : String) (fail : Bool) (v : Int)
    (hv : v ≠ uid) :
    is_user_banned (add_banned_user db now uid u f l reason fail).2 v =
      is_user_banned db v := by
  cases fail
  · rw [is_user_banned_add_banned]
    simp [beq_eq_false_iff_ne.mpr hv]
  · rfl

/-! Helper lemmas about the shape of one sweep iteration. -/

theorem sweep_user_db_promoted (g : GwCall → Bool) (now : Int)
    (sfail : Int → Bool) (acc : BotResult) (u : RestrictedRow)
    (hb : g (.ban u.user_id) = true) (hu : g (.unban u.user_id) = true) :
    (sweep_user g now sfail acc u).db =
      (remove_restricted_user (add_banned_user acc.db now u.user_id u.username
        u.first_name u.last_name "Истек период ограничения"
        (sfail u.user_id)).2 u.user_id).2 := by
  simp only [sweep_user, hb, hu, if_true]

theorem sweep_user_db_skipped (g : GwCall → Bool) (now : Int)
    (sfail : Int → Bool) (acc : BotResult) (u : RestrictedRow)
    (h : g (.ban u.user_id) = false ∨ g (.unban u.user_id) = false) :
    (sweep_user g now sfail acc u).db = acc.db := by
  rcases h with h | h
  · simp only [sweep_user, h, Bool.false_eq_true, if_false]
  · cases hb : g (.ban u.user_id)
    · simp only [sweep_user, hb, Bool.false_eq_true, if_false]
    · simp only [sweep_user, hb, h, Bool.false_eq_true, if_true, if_false]

theorem sweep_user_notifs_promoted (g : GwCall → Bool) (now : Int)
    (sfail : Int → Bool) (acc : BotResult) (u : RestrictedRow)
    (hb : g (.ban u.user_id) = true) (hu : g (.unban u.user_id) = true) :
    (sweep_user g now sfail acc u).notifs =
      acc.notifs ++ [.removedOk u.user_id] := by
  simp only [sweep_user, hb, hu, if_true]

theorem sweep_user_notifs_banfail (g : GwCall → Bool) (now : Int)
    (sfail : Int → Bool) (acc : BotResult) (u : RestrictedRow)
    (hb : g (.ban u.user_id) = false) :
    (sweep_user g now sfail acc u).notifs =
      acc.notifs ++ [.removeFail u.user_id] := by
  simp only [sweep_user, hb, Bool.false_eq_true, if_false]

theorem is_user_restricted_promoted (db : DBState) (now uid : Int)
    (u f l : Option String) (reason : String) (fail : Bool) (v : Int) :
    is_user_restricted
        (remove_restricted_user
          (add_banned_user db now uid u f l reason fail).2 uid).2 v =
      ((v != uid) && is_user_restricted db v) := by
  rw [is_user_restricted_remove, is_user_restricted_add_banned]

theorem is_user_banned_promoted (db : DBState) (now uid : Int)
    (u f l : Option String) (reason : String) (v : Int) :
    is_user_banned
        (remove_restricted_user
          (add_banned_user db now uid u f l reason false).2 uid).2 v =
      ((v == uid) || is_user_banned db v) := by
  rw [is_user_banned_remove, is_user_banned_add_banned]

/-! Preservation of mutual exclusion by the two mutation paths. -/

theorem mutex_sweep_user (g : GwCall → Bool) (now : Int) (sfail : Int → Bool)
    (acc : BotResult) (u : RestrictedRow) (h : mutex acc.db) :
    mutex (sweep_user g now sfail acc u).db := by
  intro v
  by_cases hb : g (.ban u.user_id) = true
  · by_cases hu : g (.unban u.user_id) = true
    · rw [sweep_user_db_promoted g now sfail acc u hb hu]
      by_cases hv : v = u.user_id
      · left
        rw [is_user_restricted_remove]
        simp [hv, bne]
      · rw [is_user_restricted_remove, is_user_banned_remove,
          is_user_restricted_add_banned,
          is_user_banned_add_banned_ne _ _ _ _ _ _ _ _ _ hv]
        rcases h v with h1 | h1
        · left
          rw [h1]
          simp
        · right
          exact h1
    · rw [sweep_user_db_skipped g now sfail acc u
        (Or.inr (Bool.eq_false_iff.mpr hu))]
      exact h v
  · rw [sweep_user_db_skipped g now sfail acc u
      (Or.inl (Bool.eq_false_iff.mpr hb))]
    exact h v

theorem mutex_sweep_fold (g : GwCall → Bool) (now : Int) (sfail : Int → Bool)
    (l : List RestrictedRow) (acc : BotResult) (h : mutex acc.db) :
    mutex (l.foldl (sweep_user g now sfail) acc).db := by
  induction l generalizing acc with
  | nil => exact h
  | cons a t ih => exact ih _ (mutex_sweep_user g now sfail acc a h)

theorem mutex_check_expired (cfg : Config) (g : GwCall → Bool) (now : Int)
    (sfail : Int → Bool) (db : DBState) (h : mutex db) :
    mutex (check_expired_restrictions cfg g now sfail db).db := by
  unfold check_expired_restrictions
  cases he : (get_expired_restrictions db now cfg.restriction_period_days).isEmpty
  · simp only [he, Bool.false_eq_true, if_false]
    exact mutex_sweep_fold g now sfail _ ⟨db, [], []⟩ h
  · simp only [he, if_true]
    cases hn : cfg.notify_no_users
    · simp only [hn, Bool.false_eq_true, if_false]
      exact h
    · simp only [hn, if_true]
      exact h

/-- Every completed join-handler run either leaves the database
unchanged or, when the member was not banned, appends one restriction
row for the joining member. -/
theorem track_db_cases (cfg : Config) (g : GwCall → Bool) (now : Int)
    (ev : JoinEvent) (db : DBState) (insFail : Bool) (r : BotResult)
    (h : track_chat_member cfg g now ev db insFail = .ok r) :
    r.db = db ∨
    (is_user_banned db ev.user_id = false ∧
      r.db = { db with restricted := db.restricted ++
        [⟨ev.user_id, ev.username, ev.first_name, ev.last_name, now, now⟩] }) := by
  unfold track_chat_member at h
  split at h
  · cases h
    exact Or.inl rfl
  · split at h
    · cases h
      exact Or.inl rfl
    · split at h
      · cases h
        exact Or.inl rfl
      · split at h
        · split at h
          · cases h
            exact Or.inl rfl
          · cases h
            exact Or.inl rfl
        · next hnb =>
          have hnb' : is_user_banned db ev.user_id = false :=
            Bool.eq_false_iff.mpr hnb
          split at h
          · split at h
            · cases h
            · rename_i fst db1 heq
              cases h
              unfold add_restricted_user at heq
              split at heq
              · cases heq
              · split at heq
                · cases heq
                  exact Or.inl rfl
                · cases heq
                  exact Or.inr ⟨hnb', rfl⟩
          · cases h
            exact Or.inl rfl

theorem mutex_runOp (cfg : Config) (db : DBState) (op : BotOp)
    (h : mutex db) : mutex (runOp cfg db op) := by
  cases op with
  | sweepOp g now sfail => exact mutex_check_expired cfg g now sfail db h
  | joinOp g now ev insFail =>
    simp only [runOp]
    cases htr : track_chat_member cfg g now ev db insFail with
    | error e => exact h
    | ok r =>
      show mutex r.db
      rcases track_db_cases cfg g now ev db insFail r htr with hdb | ⟨hnb, hdb⟩
      · rw [hdb]
        exact h
      · rw [hdb]
        intro v
        by_cases hv : v = ev.user_id
        · subst hv
          right
          rw [is_user_banned_append_restricted_row]
          exact hnb
        · rcases h v with h1 | h1
          · left
            rw [is_user_restricted_append_row, h1]
            simpa using beq_eq_false_iff_ne.mpr (Ne.symm hv)
          · right
            rw [is_user_banned_append_restricted_row]
            exact h1

theorem mutex_runOps (cfg : Config) (ops : List BotOp) (db : DBState)
    (h : mutex db) : mutex (runOps cfg db ops) := by
  induction ops generalizing db with
  | nil => exact h
  | cons op t ih => exact ih _ (mutex_runOp cfg db op h)

/-! Claim theorems. -/

/-- C8: calling add_restricted_user twice in succession for the same
id yields the Inserted result (True) first and the AlreadyExists
result (False) second; afterwards exactly one restricted_users row
exists for that id, and the second call returns the store unchanged,
so it never overwrites the existing row. -/
theorem insert_restricted_idempotent (db : DBState) (now1 now2 uid : Int)
    (u1 f1 l1 u2 f2 l2 : Option String)
    (h : is_user_restricted db uid = false) :
    ∃ db1 : DBState,
      add_restricted_user db now1 uid u1 f1 l1 false = .ok (true, db1) ∧
      add_restricted_user db1 now2 uid u2 f2 l2 false = .ok (false, db1) ∧
      (db1.restricted.filter (fun r => r.user_id == uid)).length = 1 := by
  refine ⟨{ db with restricted :=
    db.restricted ++ [⟨uid, u1, f1, l1, now1, now1⟩] }, ?_, ?_, ?_⟩
  · simp [add_restricted_user, h]
  · have h2 : is_user_restricted
        { db with restricted := db.restricted ++ [⟨uid, u1, f1, l1, now1, now1⟩] }
        uid = true := by
      simp [is_user_restricted, List.any_append]
    simp [add_restricted_user, h2]
  · have h' : db.restricted.any (fun r => r.user_id == uid) = false := h
    have hnil : db.restricted.filter (fun r => r.user_id == uid) = [] := by
      apply List.filter_eq_nil_iff.mpr
      intro a ha
      simpa using (List.any_eq_false.mp h') a ha
    simp [List.filter_append, hnil]

/-- C8 witness at a concrete input: the empty store, id 9. -/
theorem insert_restricted_idempotent_witness :
    is_user_restricted ⟨[], []⟩ 9 = false ∧
    ∃ db1 : DBState,
      add_restricted_user ⟨[], []⟩ 0 9 none none none false = .ok (true, db1) ∧
      add_restricted_user db1 1 9 none none none false = .ok (false, db1) ∧
      (db1.restricted.filter (fun r => r.user_id == 9)).length = 1 :=
  ⟨by decide, insert_restricted_idempotent ⟨[], []⟩ 0 1 9 none none none none
    none none (by decide)⟩

/-- C7 counterexample: a row whose restricted_at equals the cutoff
now - G exactly is returned by get_expired_restrictions (the source
compares with less-or-equal), although it is not strictly older than
now - G; the claim says the result is exactly the rows older than the
cutoff. -/
theorem get_expired_boundary_cex :
    (⟨8, none, none, none, 0, 0⟩ : RestrictedRow) ∈
        get_expired_restrictions ⟨[⟨8, none, none, none, 0, 0⟩], []⟩ 86400 1 ∧
    ¬((⟨8, none, none, none, 0, 0⟩ : RestrictedRow).restricted_at
        < 86400 - 1 * 86400) := by
  decide

/-- C7 (amended): get_expired_restrictions returns exactly the rows
of restricted_users with restricted_at less than or equal to
now - G (at or older than the cutoff; the source compares with ≤, not
strictly); a row one unit older than the cutoff is returned, a row one
unit newer is not, and the result is a sub-sequence of the table taken
by one fresh query, so no row is counted twice within one call. -/
theorem get_expired_characterization (db : DBState) (now days : Int)
    (r rIn rOut : RestrictedRow)
    (hIn : rIn ∈ db.restricted)
    (hInAt : rIn.restricted_at = now - days * 86400 - 1)
    (hOutAt : rOut.restricted_at = now - days * 86400 + 1) :
    (r ∈ get_expired_restrictions db now days ↔
      r ∈ db.restricted ∧ r.restricted_at ≤ now - days * 86400) ∧
    rIn ∈ get_expired_restrictions db now days ∧
    rOut ∉ get_expired_restrictions db now days ∧
    List.Sublist (get_expired_restrictions db now days) db.restricted := by
  refine ⟨?_, ?_, ?_, ?_⟩
  · simp [get_expired_restrictions, List.mem_filter]
  · simp only [get_expired_restrictions, List.mem_filter, hInAt,
      decide_eq_true_eq]
    exact ⟨hIn, by omega⟩
  · simp only [get_expired_restrictions, List.mem_filter, hOutAt,
      decide_eq_true_eq, not_and]
    intro _
    omega
  · exact List.filter_sublist _

/-- C7 witness at a concrete input: grace period 1 day, now = 86400,
cutoff 0, one row at -1 and one row at 1. -/
theorem get_expired_characterization_witness :
    ((⟨1, none, none, none, -1, -1⟩ : RestrictedRow) ∈
        get_expired_restrictions
          ⟨[⟨1, none, none, none, -1, -1⟩, ⟨2, none, none, none, 1, 1⟩], []⟩
          86400 1 ↔
      (⟨1, none, none, none, -1, -1⟩ : RestrictedRow) ∈
          [(⟨1, none, none, none, -1, -1⟩ : RestrictedRow),
            ⟨2, none, none, none, 1, 1⟩] ∧
        (⟨1, none, none, none, -1, -1⟩ : RestrictedRow).restricted_at
          ≤ 86400 - 1 * 86400) ∧
    (⟨1, none, none, none, -1, -1⟩ : RestrictedRow) ∈
      get_expired_restrictions
        ⟨[⟨1, none, none, none, -1, -1⟩, ⟨2, none, none, none, 1, 1⟩], []⟩
        86400 1 ∧
    (⟨2, none, none, none, 1, 1⟩ : RestrictedRow) ∉
      get_expired_restrictions
        ⟨[⟨1, none, none, none, -1, -1⟩, ⟨2, none, none, none, 1, 1⟩], []⟩
        86400 1 ∧
    List.Sublist
      (get_expired_restrictions
        ⟨[⟨1, none, none, none, -1, -1⟩, ⟨2, none, none, none, 1, 1⟩], []⟩
        86400 1)
      [⟨1, none, none, none, -1, -1⟩, ⟨2, none, none, none, 1, 1⟩] :=
  get_expired_characterization
    ⟨[⟨1, none, none, none, -1, -1⟩, ⟨2, none, none, none, 1, 1⟩], []⟩
    86400 1 ⟨1, none, none, none, -1, -1⟩ ⟨1, none, none, none, -1, -1⟩
    ⟨2, none, none, none, 1, 1⟩ (by decide) (by decide) (by decide)

/-- C3 counterexample: add_banned_user run with an injected driver
failure returns the normal result False with the store unchanged
instead of raising; the catch-all except clause of the source swallows
every storage error, so inserting a ban record can fail silently. -/
theorem add_banned_swallows_cex :
    add_banned_user ⟨[], []⟩ 0 1 none none none "spam" true =
      (false, ⟨[], []⟩) := rfl

/-- C3 (amended): add_restricted_user propagates a driver failure to
its caller as a StorageError, but add_banned_user catches every
exception and returns False with the store unchanged, so the ban
insert is the one store operation that can fail silently. -/
theorem storage_error_propagation (db : DBState) (now uid : Int)
    (u f l : Option String) (reason : String) :
    add_restricted_user db now uid u f l true = .error .ioError ∧
    add_banned_user db now uid u f l reason true = (false, db) :=
  ⟨rfl, rfl⟩

/-- C1 counterexample: one sweep over a single expired member (id 1)
whose two gateway calls succeed but whose ban-table INSERT hits a
storage failure. The promotion pair returns normally (the sweeper even
sends the success notification), yet the failure was swallowed and the
restriction row was still deleted, so afterwards the member is in
neither table and is_banned(1) is false. -/
theorem promote_to_banned_cex :
    check_expired_restrictions ⟨100, 1, false⟩ (fun _ => true) 0 (fun _ => true)
        ⟨[⟨1, none, none, none, -100000, -100000⟩], []⟩ =
      ⟨⟨[], []⟩, [.ban 1, .unban 1], [.removedOk 1]⟩ ∧
    is_user_banned (check_expired_restrictions ⟨100, 1, false⟩ (fun _ => true) 0
        (fun _ => true) ⟨[⟨1, none, none, none, -100000, -100000⟩], []⟩).db 1
      = false ∧
    is_user_restricted (check_expired_restrictions ⟨100, 1, false⟩
        (fun _ => true) 0 (fun _ => true)
        ⟨[⟨1, none, none, none, -100000, -100000⟩], []⟩).db 1
      = false :=
  ⟨rfl, rfl, rfl⟩

/-- C1 (amended): in a sweep iteration whose gateway calls succeed,
if the ban-table insert does not hit a storage failure then after the
promotion pair returns the member is no longer restricted and is
banned; if the insert does fail, the failure is swallowed, the
restriction row is still deleted and the ban table is left as it was,
so the member can end up in neither table — the two writes are two
separate statements, not one atomic unit. -/
theorem promote_to_banned_sweep (g : GwCall → Bool) (now : Int)
    (sfail : Int → Bool) (acc : BotResult) (u : RestrictedRow)
    (hb : g (.ban u.user_id) = true) (hu : g (.unban u.user_id) = true) :
    (sfail u.user_id = false →
      is_user_restricted (sweep_user g now sfail acc u).db u.user_id = false ∧
      is_user_banned (sweep_user g now sfail acc u).db u.user_id = true) ∧
    (sfail u.user_id = true →
      is_user_restricted (sweep_user g now sfail acc u).db u.user_id = false ∧
      is_user_banned (sweep_user g now sfail acc u).db u.user_id =
        is_user_banned acc.db u.user_id) := by
  constructor
  · intro hs
    simp only [sweep_user, hb, hu, if_true]
    constructor
    · rw [is_user_restricted_remove]
      simp [bne]
    · rw [is_user_banned_remove, hs, is_user_banned_add_banned]
      simp
  · intro hs
    simp only [sweep_user, hb, hu, if_true]
    constructor
    · rw [is_user_restricted_remove]
      simp [bne]
    · rw [is_user_banned_remove, hs]
      simp [add_banned_user]

/-- C1 witness at a concrete input: id 1, all gateway calls succeed,
no storage failure. -/
theorem promote_to_banned_sweep_witness :
    is_user_restricted (sweep_user (fun _ => true) 0 (fun _ => false)
        ⟨⟨[⟨1, none, none, none, 0, 0⟩], []⟩, [], []⟩
        ⟨1, none, none, none, 0, 0⟩).db 1 = false ∧
    is_user_banned (sweep_user (fun _ => true) 0 (fun _ => false)
        ⟨⟨[⟨1, none, none, none, 0, 0⟩], []⟩, [], []⟩
        ⟨1, none, none, none, 0, 0⟩).db 1 = true :=
  (promote_to_banned_sweep (fun _ => true) 0 (fun _ => false)
    ⟨⟨[⟨1, none, none, none, 0, 0⟩], []⟩, [], []⟩
    ⟨1, none, none, none, 0, 0⟩ rfl rfl).1 rfl

/-- C5: for a join event in the configured group with a joining
status by a human whose id is already banned, track_chat_member
returns normally, leaves the restricted_users table unchanged (it
never creates a RestrictionRecord), and its gateway trace is exactly
the one ban_chat_member removal call, whether or not that call
succeeds. -/
theorem reban_on_rejoin (cfg : Config) (g : GwCall → Bool) (now : Int)
    (ev : JoinEvent) (db : DBState) (insFail : Bool)
    (hc : ev.chat_id = cfg.group_id) (hs : isJoinStatus ev.status = true)
    (hbot : ev.is_bot = false) (hban : is_user_banned db ev.user_id = true) :
    ∃ r : BotResult,
      track_chat_member cfg g now ev db insFail = .ok r ∧
      r.db.restricted = db.restricted ∧
      r.gwTrace = [.ban ev.user_id] := by
  by_cases hg : g (.ban ev.user_id) = true
  · exact ⟨⟨db, [.ban ev.user_id], [.rebanOk ev.user_id]⟩,
      by simp [track_chat_member, hc, hs, hbot, hban, hg], rfl, rfl⟩
  · have hg' : g (.ban ev.user_id) = false := by
      cases h : g (.ban ev.user_id)
      · rfl
      · exact absurd h hg
    exact ⟨⟨db, [.ban ev.user_id], [.rebanFail ev.user_id]⟩,
      by simp [track_chat_member, hc, hs, hbot, hban, hg'], rfl, rfl⟩

/-- C5 witness at a concrete input: id 3 already banned rejoins, the
gateway succeeds. -/
theorem reban_on_rejoin_witness :
    ∃ r : BotResult,
      track_chat_member ⟨100, 1, false⟩ (fun _ => true) 0
          ⟨100, .member, false, 3, none, none, none⟩
          ⟨[], [⟨3, none, none, none, 0, "spam"⟩]⟩ false = .ok r ∧
      r.db.restricted = [] ∧
      r.gwTrace = [.ban 3] :=
  reban_on_rejoin ⟨100, 1, false⟩ (fun _ => true) 0
    ⟨100, .member, false, 3, none, none, none⟩
    ⟨[], [⟨3, none, none, none, 0, "spam"⟩]⟩ false rfl rfl rfl (by decide)

/-- C10: a join event whose member id is already banned performs no
store writes at all: whatever the gateway outcome and whatever the
injected insert-failure flag, track_chat_member returns normally with
the database (both tables, all fields) exactly as it was. -/
theorem banned_join_frame (cfg : Config) (g : GwCall → Bool) (now : Int)
    (ev : JoinEvent) (db : DBState) (insFail : Bool)
    (hban : is_user_banned db ev.user_id = true) :
    ∃ r : BotResult,
      track_chat_member cfg g now ev db insFail = .ok r ∧ r.db = db := by
  unfold track_chat_member
  rw [hban]
  split
  · exact ⟨_, rfl, rfl⟩
  · split
    · exact ⟨_, rfl, rfl⟩
    · split
      · exact ⟨_, rfl, rfl⟩
      · simp only [if_true]
        split
        · exact ⟨_, rfl, rfl⟩
        · exact ⟨_, rfl, rfl⟩

/-- C10 witness at a concrete input: banned id 4 rejoins while the
gateway fails and the insert-failure flag is set. -/
theorem banned_join_frame_witness :
    ∃ r : BotResult,
      track_chat_member ⟨100, 1, false⟩ (fun _ => false) 0
          ⟨100, .member, false, 4, none, none, none⟩
          ⟨[], [⟨4, none, none, none, 0, "spam"⟩]⟩ true = .ok r ∧
      r.db = ⟨[], [⟨4, none, none, none, 0, "spam"⟩]⟩ :=
  banned_join_frame ⟨100, 1, false⟩ (fun _ => false) 0
    ⟨100, .member, false, 4, none, none, none⟩
    ⟨[], [⟨4, none, none, none, 0, "spam"⟩]⟩ true (by decide)

/-- C9: in the restriction branch (correct chat, joining status,
human, not banned), a failing gateway restrict command means no
record is written — the handler returns with the store unchanged and
exactly the one failure notification; a succeeding gateway command
with the id already restricted (the already-exists race) is non-fatal:
the handler returns normally with the store unchanged and a success
notification, raising nothing. -/
theorem restrict_branch_outcomes (cfg : Config) (g : GwCall → Bool) (now : Int)
    (ev : JoinEvent) (db : DBState)
    (hc : ev.chat_id = cfg.group_id) (hs : isJoinStatus ev.status = true)
    (hbot : ev.is_bot = false) (hban : is_user_banned db ev.user_id = false) :
    (g (.tgRestrict ev.user_id) = false →
      track_chat_member cfg g now ev db false =
        .ok ⟨db, [.tgRestrict ev.user_id], [.restrictFail ev.user_id]⟩) ∧
    (g (.tgRestrict ev.user_id) = true →
      is_user_restricted db ev.user_id = true →
      track_chat_member cfg g now ev db false =
        .ok ⟨db, [.tgRestrict ev.user_id], [.restrictedOk ev.user_id]⟩) := by
  constructor
  · intro hg
    simp [track_chat_member, hc, hs, hbot, hban, hg]
  · intro hg hr
    simp [track_chat_member, add_restricted_user, hc, hs, hbot, hban, hg, hr]

/-- C9 witness at a concrete input: id 6 joins the empty store while
the gateway restrict command fails; nothing is written and the failure
notification is the only one. -/
theorem restrict_branch_outcomes_witness :
    track_chat_member ⟨100, 1, false⟩ (fun _ => false) 0
        ⟨100, .member, false, 6, none, none, none⟩ ⟨[], []⟩ false =
      .ok ⟨⟨[], []⟩, [.tgRestrict 6], [.restrictFail 6]⟩ :=
  (restrict_branch_outcomes ⟨100, 1, false⟩ (fun _ => false) 0
    ⟨100, .member, false, 6, none, none, none⟩ ⟨[], []⟩ rfl rfl rfl rfl).1 rfl

/-- C2 counterexample: two completed store operations — the
insert-if-absent of id 5 into the empty store, then add_banned_user of
the same id, whose INSERT OR REPLACE succeeds regardless of the
restriction table — leave id 5 present in both tables at once, so the
mutual exclusion does not hold after every sequence of completed store
operations. -/
theorem mutual_exclusion_cex :
    add_restricted_user ⟨[], []⟩ 0 5 none none none false =
      .ok (true, ⟨[⟨5, none, none, none, 0, 0⟩], []⟩) ∧
    is_user_restricted
      (add_banned_user ⟨[⟨5, none, none, none, 0, 0⟩], []⟩ 1 5 none none none
        "manual" false).2 5 = true ∧
    is_user_banned
      (add_banned_user ⟨[⟨5, none, none, none, 0, 0⟩], []⟩ 1 5 none none none
        "manual" false).2 5 = true :=
  ⟨rfl, rfl, rfl⟩

/-- C2 (amended): the mutual exclusion invariant holds at the
boundaries of the operations the bot actually performs: starting from
the empty store, after any sequence of completed join-handler runs and
sweeper runs (with arbitrary gateway outcomes and injected ban-insert
failures), no member id is simultaneously restricted and banned. It is
only inside a sweeping promotion — between add_banned_user and
remove_restricted_user — or after store operations sequenced some
other way that an id can sit in both tables. -/
theorem mutual_exclusion_bot (cfg : Config) (ops : List BotOp) (uid : Int) :
    is_user_restricted (runOps cfg ⟨[], []⟩ ops) uid = false ∨
    is_user_banned (runOps cfg ⟨[], []⟩ ops) uid = false :=
  mutex_runOps cfg ops ⟨[], []⟩ (fun _ => Or.inl rfl) uid

/-- C4 counterexample: id 7 is already restricted and not banned; a
further human join in the configured group whose gateway restrict call
succeeds hits the already-exists case of the insert (which returns
False), yet the handler still emits the one restricted notification
instead of none. -/
theorem join_notification_cex :
    is_user_restricted ⟨[⟨7, none, none, none, 0, 0⟩], []⟩ 7 = true ∧
    track_chat_member ⟨100, 1, false⟩ (fun _ => true) 50
        ⟨100, .member, false, 7, none, none, none⟩
        ⟨[⟨7, none, none, none, 0, 0⟩], []⟩ false =
      .ok ⟨⟨[⟨7, none, none, none, 0, 0⟩], []⟩, [.tgRestrict 7],
        [.restrictedOk 7]⟩ :=
  ⟨rfl, rfl⟩

/-- C4 (amended): a completed track_chat_member run emits exactly one
notification when the event passes the three filters (configured
group, joining status, human), and none otherwise. In particular a
join by a bot account emits nothing, while a join whose insert hits
the already-exists case emits the same single restricted notification
as a fresh insert, not nothing. -/
theorem join_notification_count (cfg : Config) (g : GwCall → Bool) (now : Int)
    (ev : JoinEvent) (db : DBState) (insFail : Bool) (r : BotResult)
    (h : track_chat_member cfg g now ev db insFail = .ok r) :
    r.notifs.length =
      if ev.chat_id = cfg.group_id ∧ isJoinStatus ev.status = true ∧
          ev.is_bot = false then 1 else 0 := by
  unfold track_chat_member at h
  split at h
  · next hc =>
    cases h
    have hc' : ¬ ev.chat_id = cfg.group_id := by simpa [bne] using hc
    simp [hc']
  · next hc =>
    have hc' : ev.chat_id = cfg.group_id := by simpa [bne] using hc
    split at h
    · next hs =>
      cases h
      have hs' : ¬ isJoinStatus ev.status = true := by simpa using hs
      simp [hc', hs']
    · next hs =>
      have hs' : isJoinStatus ev.status = true := by simpa using hs
      split at h
      · next hbot =>
        cases h
        simp [hc', hs', hbot]
      · next hbot =>
        have hbot' : ev.is_bot = false := Bool.eq_false_iff.mpr hbot
        split at h
        · split at h
          · cases h
            simp [hc', hs', hbot']
          · cases h
            simp [hc', hs', hbot']
        · split at h
          · split at h
            · cases h
            · rename_i fst db1 heq
              cases h
              simp [hc', hs', hbot']
          · cases h
            simp [hc', hs', hbot']

/-- C4 witness at a concrete input: a join by a bot account (id 11)
emits no notification. -/
theorem join_notification_count_witness :
    (BotResult.mk ⟨[], []⟩ [] []).notifs.length =
      if (100 : Int) = 100 ∧ isJoinStatus .member = true ∧ true = false
      then 1 else 0 :=
  join_notification_count ⟨100, 1, false⟩ (fun _ => true) 0
    ⟨100, .member, true, 11, none, none, none⟩ ⟨[], []⟩ false
    ⟨⟨[], []⟩, [], []⟩ rfl

/-- C6: in a sweep whose expired snapshot holds three distinct
members, where the gateway fails the removal of the second member only
and the ban inserts of the first and third do not hit storage
failures, the first and third members end up banned and no longer
restricted, the second stays restricted and unbanned, and exactly one
failure notification is emitted — one member's gateway error does not
abort the rest of the batch. -/
theorem batch_isolation (cfg : Config) (g : GwCall → Bool) (now : Int)
    (sfail : Int → Bool) (db : DBState) (r1 r2 r3 : RestrictedRow)
    (hexp : get_expired_restrictions db now cfg.restriction_period_days =
      [r1, r2, r3])
    (h12 : r1.user_id ≠ r2.user_id) (h13 : r1.user_id ≠ r3.user_id)
    (h23 : r2.user_id ≠ r3.user_id)
    (hg1b : g (.ban r1.user_id) = true) (hg1u : g (.unban r1.user_id) = true)
    (hg2 : g (.ban r2.user_id) = false)
    (hg3b : g (.ban r3.user_id) = true) (hg3u : g (.unban r3.user_id) = true)
    (hs1 : sfail r1.user_id = false) (hs3 : sfail r3.user_id = false)
    (hb2 : is_user_banned db r2.user_id = false) :
    (is_user_banned (check_expired_restrictions cfg g now sfail db).db
        r1.user_id = true ∧
      is_user_restricted (check_expired_restrictions cfg g now sfail db).db
        r1.user_id = false) ∧
    (is_user_banned (check_expired_restrictions cfg g now sfail db).db
        r2.user_id = false ∧
      is_user_restricted (check_expired_restrictions cfg g now sfail db).db
        r2.user_id = true) ∧
    (is_user_banned (check_expired_restrictions cfg g now sfail db).db
        r3.user_id = true ∧
      is_user_restricted (check_expired_restrictions cfg g now sfail db).db
        r3.user_id = false) ∧
    ((check_expired_restrictions cfg g now sfail db).notifs.filter
        (fun n => n.isFailure)).length = 1 := by
  have hstep : check_expired_restrictions cfg g now sfail db =
      sweep_user g now sfail (sweep_user g now sfail
        (sweep_user g now sfail ⟨db, [], []⟩ r1) r2) r3 := by
    unfold check_expired_restrictions
    rw [hexp]
    rfl
  have hr2 : r2 ∈ db.restricted := by
    have hmem : r2 ∈ get_expired_restrictions db now
        cfg.restriction_period_days := by
      rw [hexp]
      simp
    exact List.mem_of_mem_filter hmem
  have hr2r : is_user_restricted db r2.user_id = true := by
    have hex : ∃ x ∈ db.restricted, (x.user_id == r2.user_id) = true :=
      ⟨r2, hr2, by simp⟩
    simpa [is_user_restricted, List.any_eq_true] using hex
  rw [hstep, sweep_user_db_promoted _ _ _ _ _ hg3b hg3u,
    sweep_user_db_skipped _ _ _ _ _ (Or.inl hg2),
    sweep_user_db_promoted _ _ _ _ _ hg1b hg1u, hs1, hs3,
    sweep_user_notifs_promoted _ _ _ _ _ hg3b hg3u,
    sweep_user_notifs_banfail _ _ _ _ _ hg2,
    sweep_user_notifs_promoted _ _ _ _ _ hg1b hg1u]
  refine ⟨⟨?_, ?_⟩, ⟨?_, ?_⟩, ⟨?_, ?_⟩, ?_⟩
  · rw [is_user_banned_promoted, is_user_banned_promoted]
    simp [beq_eq_false_iff_ne.mpr h13]
  · rw [is_user_restricted_promoted, is_user_restricted_promoted]
    simp [bne]
  · rw [is_user_banned_promoted, is_user_banned_promoted]
    simp [beq_eq_false_iff_ne.mpr h23,
      beq_eq_false_iff_ne.mpr (Ne.symm h12), hb2]
  · rw [is_user_restricted_promoted, is_user_restricted_promoted]
    simp [bne_iff_ne.mpr h23, bne_iff_ne.mpr (Ne.symm h12), hr2r]
  · rw [is_user_banned_promoted]
    simp
  · rw [is_user_restricted_promoted]
    simp [bne]
  · simp [Notif.isFailure, List.filter_append]

/-- C6 witness at a concrete input: members 1, 2, 3 all expired, the
gateway fails exactly the ban call of member 2, no storage failures. -/
theorem batch_isolation_witness :
    (is_user_banned (check_expired_restrictions ⟨100, 1, false⟩
          (fun c => c != GwCall.ban 2) 0 (fun _ => false)
          ⟨[⟨1, none, none, none, -200000, -200000⟩,
            ⟨2, none, none, none, -200000, -200000⟩,
            ⟨3, none, none, none, -200000, -200000⟩], []⟩).db 1 = true ∧
      is_user_restricted (check_expired_restrictions ⟨100, 1, false⟩
          (fun c => c != GwCall.ban 2) 0 (fun _ => false)
          ⟨[⟨1, none, none, none, -200000, -200000⟩,
            ⟨2, none, none, none, -200000, -200000⟩,
            ⟨3, none, none, none, -200000, -200000⟩], []⟩).db 1 = false) ∧
    (is_user_banned (check_expired_restrictions ⟨100, 1, false⟩
          (fun c => c != GwCall.ban 2) 0 (fun _ => false)
          ⟨[⟨1, none, none, none, -200000, -200000⟩,
            ⟨2, none, none, none, -200000, -200000⟩,
            ⟨3, none, none, none, -200000, -200000⟩], []⟩).db 2 = false ∧
      is_user_restricted (check_expired_restrictions ⟨100, 1, false⟩
          (fun c => c != GwCall.ban 2) 0 (fun _ => false)
          ⟨[⟨1, none, none, none, -200000, -200000⟩,
            ⟨2, none, none, none, -200000, -200000⟩,
            ⟨3, none, none, none, -200000, -200000⟩], []⟩).db 2 = true) ∧
    (is_user_banned (check_expired_restrictions ⟨100, 1, false⟩
          (fun c => c != GwCall.ban 2) 0 (fun _ => false)
          ⟨[⟨1, none, none, none, -200000, -200000⟩,
            ⟨2, none, none, none, -200000, -200000⟩,
            ⟨3, none, none, none, -200000, -200000⟩], []⟩).db 3 = true ∧
      is_user_restricted (check_expired_restrictions ⟨100, 1, false⟩
          (fun c => c != GwCall.ban 2) 0 (fun _ => false)
          ⟨[⟨1, none, none, none, -200000, -200000⟩,
            ⟨2, none, none, none, -200000, -200000⟩,
            ⟨3, none, none, none, -200000, -200000⟩], []⟩).db 3 = false) ∧
    ((check_expired_restrictions ⟨100, 1, false⟩
          (fun c => c != GwCall.ban 2) 0 (fun _ => false)
          ⟨[⟨1, none, none, none, -200000, -200000⟩,
            ⟨2, none, none, none, -200000, -200000⟩,
            ⟨3, none, none, none, -200000, -200000⟩], []⟩).notifs.filter
        (fun n => n.isFailure)).length = 1 :=
  batch_isolation ⟨100, 1, false⟩ (fun c => c != GwCall.ban 2) 0
    (fun _ => false)
    ⟨[⟨1, none, none, none, -200000, -200000⟩,
      ⟨2, none, none, none, -200000, -200000⟩,
      ⟨3, none, none, none, -200000, -200000⟩], []⟩
    ⟨1, none, none, none, -200000, -200000⟩
    ⟨2, none, none, none, -200000, -200000⟩
    ⟨3, none, none, none, -200000, -200000⟩
    (by decide) (by decide) (by decide) (by decide) (by decide) (by decide)
    (by decide) (by decide) (by decide) rfl rfl rfl

end SpamRestrictor
